import Mathlib

/-!
Verification of the dogma-black/black repository: environment-variable
startup validation, logging callbacks, the sequential audit pipeline and
the HTTP orchestrator stub, embedded shallowly from the Python sources.
-/

namespace Black

/-- ASCII lowercasing, modelling Python `str.lower()` on the ASCII strings
the code compares against. -/
def strLower (s : String) : String := String.mk (s.data.map Char.toLower)

/-- ASCII uppercasing, modelling Python `str.upper()`. -/
def strUpper (s : String) : String := String.mk (s.data.map Char.toUpper)

/-- Python truthiness of an `os.getenv` result: `None` (variable unset) and
the empty string are falsy, every other string is truthy. -/
def pyFalsy : Option String → Bool
  | none => true
  | some t => t == ""

/-- The four environment variables read by
src/AgentesBlack/adk_project/app_agent/agent.py; `none` means unset. -/
structure Env where
  model : Option String
  vertexai : Option String
  project : Option String
  location : Option String

/-- Embeds `os.getenv("GOOGLE_GENAI_USE_VERTEXAI", "1")` (agent.py line 21):
the raw toggle string, defaulting to "1" when the variable is unset. -/
def google_genai_use_vertexai (e : Env) : String := e.vertexai.getD "1"

/-- Embeds the condition `google_genai_use_vertexai.lower() in ("true", "1", "yes")`
(agent.py line 29). -/
def vertexaiEnabled (e : Env) : Bool :=
  let v := strLower (google_genai_use_vertexai e)
  v == "true" || v == "1" || v == "yes"

/-- Embeds the `missing_vars` accumulation of agent.py lines 25-33: MODEL is
appended when `not model_name`, and when the vertexai toggle is enabled,
GOOGLE_CLOUD_PROJECT and GOOGLE_CLOUD_LOCATION are appended when their
`os.getenv` results are falsy. -/
def missing_vars (e : Env) : List String :=
  (if pyFalsy e.model then ["MODEL"] else []) ++
  (if vertexaiEnabled e then
      (if pyFalsy e.project then ["GOOGLE_CLOUD_PROJECT"] else []) ++
      (if pyFalsy e.location then ["GOOGLE_CLOUD_LOCATION"] else [])
    else [])

/-- Embeds agent.py lines 35-39: when `missing_vars` is nonempty a single
aggregated ValueError is raised whose message joins the collected names;
otherwise startup proceeds (`none`). -/
def startupError (e : Env) : Option String :=
  if missing_vars e = [] then none
  else some ("Missing required environment variables: " ++
    String.intercalate ", " (missing_vars e) ++
    ". Please export them or add them to a .env file before running the script.")

/-- Looks an environment variable up by name, for stating the claim about
which variables the startup check reports. -/
def lookupVar (e : Env) (v : String) : Option String :=
  if v = "MODEL" then e.model
  else if v = "GOOGLE_GENAI_USE_VERTEXAI" then e.vertexai
  else if v = "GOOGLE_CLOUD_PROJECT" then e.project
  else if v = "GOOGLE_CLOUD_LOCATION" then e.location
  else none

/-- The claim's required set: MODEL always, and the cloud project and
location exactly when the hosted-backend toggle is enabled. -/
def requiredVars (e : Env) : List String :=
  "MODEL" ::
    (if vertexaiEnabled e then ["GOOGLE_CLOUD_PROJECT", "GOOGLE_CLOUD_LOCATION"] else [])

/-- Stated from the claim's words: the required variables that are absent,
i.e. unset in the environment. -/
def absentRequired (e : Env) : List String :=
  (requiredVars e).filter (fun v => (lookupVar e v).isNone)

/-- C1 counterexample: with MODEL set to the empty string and the
hosted-backend toggle disabled, no required variable is absent, yet the
startup check raises an error naming MODEL: the code treats a present but
empty variable as missing, so the error does not name exactly the absent
set. -/
theorem c1_counterexample :
    absentRequired ⟨some "", some "no", some "p", some "l"⟩ = [] ∧
    missing_vars ⟨some "", some "no", some "p", some "l"⟩ = ["MODEL"] ∧
    (startupError ⟨some "", some "no", some "p", some "l"⟩).isSome = true := by
  refine ⟨by decide, by decide, by decide⟩

/-- C1 (amended): for every environment, the startup check raises a single
aggregated error naming exactly the required variables that are unset or
set to the empty string (MODEL always required; GOOGLE_CLOUD_PROJECT and
GOOGLE_CLOUD_LOCATION required only when the hosted-backend toggle is
enabled), and raises nothing exactly when that set is empty. -/
theorem c1_missing_exactly_falsy_required (e : Env) :
    missing_vars e = (requiredVars e).filter (fun v => pyFalsy (lookupVar e v)) ∧
    (startupError e).isNone = (missing_vars e).isEmpty := by
  constructor
  · cases hv : vertexaiEnabled e <;>
      simp [missing_vars, requiredVars, lookupVar, hv, List.filter] <;>
      cases pyFalsy e.model <;>
      cases pyFalsy e.project <;>
      cases pyFalsy e.location <;>
      simp
  · cases h : missing_vars e <;> simp [startupError, h]

/-- C9: when GOOGLE_GENAI_USE_VERTEXAI is unset the toggle defaults to
enabled, making GOOGLE_CLOUD_PROJECT and GOOGLE_CLOUD_LOCATION required at
startup (each is reported when unset), and for a set value the toggle is
enabled exactly when the value lowercased is one of "true", "1", "yes". -/
theorem c9_vertexai_toggle (e : Env) :
    (e.vertexai = none →
      vertexaiEnabled e = true ∧
      (e.project = none → "GOOGLE_CLOUD_PROJECT" ∈ missing_vars e) ∧
      (e.location = none → "GOOGLE_CLOUD_LOCATION" ∈ missing_vars e)) ∧
    (∀ v, e.vertexai = some v →
      vertexaiEnabled e =
        (strLower v == "true" || strLower v == "1" || strLower v == "yes")) := by
  constructor
  · intro h
    have hv : vertexaiEnabled e = true := by
      simp only [vertexaiEnabled, google_genai_use_vertexai, h, Option.getD]
      decide
    refine ⟨hv, ?_, ?_⟩
    · intro hp
      simp [missing_vars, hv, pyFalsy, hp]
    · intro hl
      simp [missing_vars, hv, pyFalsy, hl]
  · intro v h
    simp [vertexaiEnabled, google_genai_use_vertexai, h]

/-! Embedding of src/AgentesBlack/adk_project/callback_logging.py. The genai
part, content, request and response types are modelled with the fields the
callbacks read; each logging call is recorded as a string in the returned
list, in emission order. -/

/-- A genai function call as the callback reads it: a name and the `str()`
rendering of its arguments. -/
structure FunctionCall where
  name : String
  args : String

/-- A genai content part: optional text and optional function call, the two
fields the callbacks inspect. -/
structure GenPart where
  text : Option String
  function_call : Option FunctionCall

/-- A genai content: a role and a list of parts. -/
structure GenContent where
  role : String
  parts : List GenPart

/-- The LLM request as the before-call hook reads it. -/
structure LlmRequest where
  contents : List GenContent

/-- The LLM response as the after-call hook reads it. -/
structure LlmResponse where
  content : Option GenContent

/-- Python truthiness of `part.text`: `None` and `""` are falsy. -/
def partHasText (p : GenPart) : Bool := !(pyFalsy p.text)

/-- Embeds `log_query_to_model` (callback_logging.py lines 11-16): when the
contents list is nonempty, its last entry has role "user", has parts, and
the first part's text is truthy, one informational line with the agent name
and that text is logged; otherwise nothing is logged. -/
def log_query_to_model (agentName : String) (req : LlmRequest) : List String :=
  match req.contents.getLast? with
  | none => []
  | some last =>
    if last.role == "user" then
      match last.parts.head? with
      | none => []
      | some p =>
        if partHasText p then
          ["[query to " ++ agentName ++ "]: " ++ p.text.getD ""]
        else []
    else []

/-- The text carried by a message, as the before-call hook extracts it: the
text of the message's first part, or empty when there is none. -/
def lastMessageText (c : GenContent) : String :=
  match c.parts.head? with
  | none => ""
  | some p => p.text.getD ""

/-- Embeds the per-part branch of `log_model_response` (callback_logging.py
lines 20-26): a part with truthy text logs a response line; otherwise a
part with a function call logs a name(args) line; otherwise nothing. -/
def logPart (agentName : String) (p : GenPart) : List String :=
  if partHasText p then
    ["[response from " ++ agentName ++ "]: " ++ p.text.getD ""]
  else
    match p.function_call with
    | some fc =>
      ["[function call from " ++ agentName ++ "]: " ++ fc.name ++ "(" ++ fc.args ++ ")"]
    | none => []

/-- The for-loop of `log_model_response`: logs of each part, concatenated in
order. -/
def logParts (agentName : String) : List GenPart → List String
  | [] => []
  | p :: rest => logPart agentName p ++ logParts agentName rest

/-- Embeds `log_model_response` (callback_logging.py lines 18-26): nothing
when the response has no content or no parts; otherwise the loop over the
parts. -/
def log_model_response (agentName : String) (resp : LlmResponse) : List String :=
  match resp.content with
  | none => []
  | some c => logParts agentName c.parts

/-- Number of text parts of a content: parts whose text is non-empty. -/
def textPartCount (c : GenContent) : Nat :=
  (c.parts.filter partHasText).length

/-- Number of function-call parts of a content: parts carrying a function
call. -/
def funcCallPartCount (c : GenContent) : Nat :=
  (c.parts.filter (fun p => p.function_call.isSome)).length

/-- C2: for every request whose contents end in some last message, if that
message has role "user" and non-empty text then `log_query_to_model` logs
exactly one line, consisting of the agent-name tag followed by that text,
and if the role is not "user" or the text is empty it logs nothing. -/
theorem c2_log_query_to_model (agentName : String) (req : LlmRequest)
    (last : GenContent) (hlast : req.contents.getLast? = some last) :
    (last.role = "user" ∧ lastMessageText last ≠ "" →
      log_query_to_model agentName req =
        ["[query to " ++ agentName ++ "]: " ++ lastMessageText last]) ∧
    (last.role ≠ "user" ∨ lastMessageText last = "" →
      log_query_to_model agentName req = []) := by
  have hunfold : log_query_to_model agentName req =
      (if last.role == "user" then
        match last.parts.head? with
        | none => []
        | some p =>
          if partHasText p then
            ["[query to " ++ agentName ++ "]: " ++ p.text.getD ""]
          else []
      else []) := by
    rw [log_query_to_model, hlast]
  constructor
  · rintro ⟨hrole, htext⟩
    rw [hunfold, if_pos (by simp [hrole])]
    rcases hp : last.parts.head? with _ | p
    · exact absurd (by simp [lastMessageText, hp]) htext
    · have htxt : lastMessageText last = p.text.getD "" := by
        simp [lastMessageText, hp]
      have hhas : partHasText p = true := by
        rcases ht : p.text with _ | t
        · exact absurd (by simp [htxt, ht]) htext
        · rcases h0 : t == "" with _ | _
          · simp [partHasText, pyFalsy, ht, h0]
          · exact absurd (by simp [htxt, ht]; simpa using h0) htext
      simp [hhas, htxt]
  · intro hother
    rw [hunfold]
    rcases hother with hrole | htext
    · rw [if_neg (by simpa using hrole)]
    · rcases hrole : last.role == "user" with _ | _
      · simp [hrole]
      · simp only [hrole, if_true]
        rcases hp : last.parts.head? with _ | p
        · rfl
        · have : partHasText p = false := by
            have htxt : p.text.getD "" = "" := by
              simpa [lastMessageText, hp] using htext
            rcases ht : p.text with _ | t
            · simp [partHasText, pyFalsy, ht]
            · simp [partHasText, pyFalsy, ht]
              simpa [ht] using htxt
          simp [this]

/-- C2 witness: a concrete request whose last message is a user message with
text "hola" is logged as one tagged line. -/
theorem c2_log_query_to_model_witness :
    log_query_to_model "fact_checking_assistant"
        ⟨[⟨"user", [⟨some "hola", none⟩]⟩]⟩ =
      ["[query to fact_checking_assistant]: hola"] :=
  (c2_log_query_to_model "fact_checking_assistant"
      ⟨[⟨"user", [⟨some "hola", none⟩]⟩]⟩ ⟨"user", [⟨some "hola", none⟩]⟩
      rfl).1 ⟨rfl, by decide⟩

/-- C3 counterexample: a response with one part carrying both non-empty text
and a function call has one text part and one function-call part, yet the
hook logs a single line (the `elif` gives text precedence), not N+M = 2. -/
theorem c3_counterexample :
    textPartCount ⟨"model", [⟨some "hi", some ⟨"f", "\x7b\x7d"⟩⟩]⟩ = 1 ∧
    funcCallPartCount ⟨"model", [⟨some "hi", some ⟨"f", "\x7b\x7d"⟩⟩]⟩ = 1 ∧
    (log_model_response "a"
        ⟨some ⟨"model", [⟨some "hi", some ⟨"f", "\x7b\x7d"⟩⟩]⟩⟩).length = 1 := by
  refine ⟨by decide, by decide, by decide⟩

/-- C3 (amended): the after-call hook emits one line per part that has
non-empty text or a function call: exactly N + M lines where N is the
number of text parts and M the number of parts with a function call but no
non-empty text (a part with both is logged once, as text); every text part
contributes its response line and every function-call part without text
contributes its name(args) line. -/
theorem c3_log_model_response_lines (agentName : String) (c : GenContent) :
    (log_model_response agentName ⟨some c⟩).length =
      textPartCount c +
        (c.parts.filter (fun p => !(partHasText p) && p.function_call.isSome)).length ∧
    (∀ p, p ∈ c.parts → partHasText p = true →
      ("[response from " ++ agentName ++ "]: " ++ p.text.getD "") ∈
        log_model_response agentName ⟨some c⟩) ∧
    (∀ p fc, p ∈ c.parts → partHasText p = false → p.function_call = some fc →
      ("[function call from " ++ agentName ++ "]: " ++ fc.name ++ "(" ++ fc.args ++ ")") ∈
        log_model_response agentName ⟨some c⟩) := by
  have hlen : ∀ ps : List GenPart,
      (logParts agentName ps).length =
        (ps.filter partHasText).length +
          (ps.filter (fun p => !(partHasText p) && p.function_call.isSome)).length := by
    intro ps
    induction ps with
    | nil => rfl
    | cons p rest ih =>
      rcases h : partHasText p with _ | _
      · rcases hfc : p.function_call with _ | fc
        · simp [logParts, logPart, h, hfc, List.filter, ih]
        · simp [logParts, logPart, h, hfc, List.filter, ih]
          omega
      · simp [logParts, logPart, h, List.filter, ih]
        omega
  have hmem : ∀ (ps : List GenPart) (p : GenPart) (line : String),
      p ∈ ps → line ∈ logPart agentName p → line ∈ logParts agentName ps := by
    intro ps
    induction ps with
    | nil => intro p line hp; exact absurd hp (List.not_mem_nil p)
    | cons q rest ih =>
      intro p line hp hline
      rcases List.mem_cons.mp hp with h | h
      · subst h
        exact List.mem_append.mpr (Or.inl hline)
      · exact List.mem_append.mpr (Or.inr (ih p line h hline))
  refine ⟨hlen c.parts, ?_, ?_⟩
  · intro p hp htext
    exact hmem c.parts p _ hp (by simp [logPart, htext])
  · intro p fc hp htext hfc
    exact hmem c.parts p _ hp (by simp [logPart, htext, hfc])

/-! Embedding of src/AgentesBlack/adk_project/llm_auditor/agent.py: the
two-stage sequential pipeline. The critic and reviser sub-agent modules and
the framework's SequentialAgent runner are not part of the staged sources,
so the stages are abstract labels and the runner is modelled from the
spec. -/

/-- The two pipeline stages. -/
inductive Stage where
  | critic
  | reviser
deriving DecidableEq

/-- A sequential agent configuration: a name and the declared sub-agent
order. -/
structure SequentialAgentCfg where
  name : String
  sub_agents : List Stage

/-- Embeds the `llm_auditor` declaration (llm_auditor/agent.py lines 26-35):
`sub_agents=[critic_agent, reviser_agent]`. -/
def llm_auditor : SequentialAgentCfg :=
  ⟨"llm_auditor", [Stage.critic, Stage.reviser]⟩

/-- Modelled from the spec: the framework's SequentialAgent (not in the
staged sources) runs its sub-agents in declared order, each exactly once,
with no branching, skipping or repetition; the run's trace is the declared
list. -/
def runSequential (cfg : SequentialAgentCfg) : List Stage := cfg.sub_agents

/-- The stage trace of one run of the llm_auditor pipeline. -/
def auditorTrace : List Stage := runSequential llm_auditor

/-- C4: in every run of the llm_auditor pipeline each stage occurs exactly
once, the critic occurs strictly before the reviser, and the reviser is the
terminal stage of the trace. -/
theorem c4_critic_before_reviser :
    auditorTrace.count Stage.critic = 1 ∧
    auditorTrace.count Stage.reviser = 1 ∧
    auditorTrace.indexOf Stage.critic < auditorTrace.indexOf Stage.reviser ∧
    auditorTrace.getLast? = some Stage.reviser := by
  decide

/-! Embedding of src/Central black/centralblack-backend/main.py: the data
model and the single orchestrator endpoint. Python exceptions are modelled
with `Except`; each `print` call is recorded as a string in the returned
log list. -/

/-- A conversation turn (pydantic model `Message`, main.py lines 10-13). -/
structure Message where
  role : String
  content : String
  source : Option String

/-- The request body schema (pydantic `OrchestrateRequest`, main.py lines
15-17). -/
structure OrchestrateRequest where
  prompt : String
  history : List Message

/-- The response body schema (pydantic `OrchestrateResponse`, main.py lines
19-21). -/
structure OrchestrateResponse where
  reply : String
  source : String

/-- A Python exception, reduced to its rendered message. -/
structure PyExn where
  msg : String

/-- An HTTP outcome of the endpoint: the status code, the success body
fields (empty on error) and the error detail (empty on success). -/
structure HttpResult where
  status : Nat
  reply : String
  source : String
  detail : String

/-- Embeds the `try` body of `orchestrate` (main.py lines 40-45): builds the
simulated uppercased reply and the fixed source label. The body is pure
string formatting and construction, so it always returns `Except.ok`. -/
def orchestrateBody (req : OrchestrateRequest) : Except PyExn OrchestrateResponse :=
  Except.ok
    ⟨"El orquestador ha procesado tu prompt: \x27" ++ strUpper req.prompt ++ "\x27",
     "app_agent (Simulado)"⟩

/-- Embeds the `orchestrate` handler's control flow (main.py lines 27-49),
abstracted over the processing step inside the `try`: first the
prompt-received print, then on success a 200 with the response, and on any
exception a log of the error followed by a fixed 500 HTTPException. -/
def orchestrateHandler
    (body : OrchestrateRequest → Except PyExn OrchestrateResponse)
    (req : OrchestrateRequest) : HttpResult × List String :=
  match body req with
  | Except.ok r =>
    (⟨200, r.reply, r.source, ""⟩, ["Prompt recibido: " ++ req.prompt])
  | Except.error e =>
    (⟨500, "", "", "Error interno en el orquestador."⟩,
     ["Prompt recibido: " ++ req.prompt, "Error en el orquestador: " ++ e.msg])

/-- The deployed `orchestrate` endpoint: the handler with its actual body. -/
def orchestrate (req : OrchestrateRequest) : HttpResult × List String :=
  orchestrateHandler orchestrateBody req

/-- C5: for every prompt, POST /api/orchestrate returns status 200, a reply
containing the uppercased prompt, and source "app_agent (Simulado)"; the
result does not depend on the history, and for prompt "hello" the reply
contains "HELLO". -/
theorem c5_orchestrate_uppercase_echo (p : String) (h h2 : List Message) :
    (orchestrate ⟨p, h⟩).1.status = 200 ∧
    (∃ a b, (orchestrate ⟨p, h⟩).1.reply = a ++ strUpper p ++ b) ∧
    (orchestrate ⟨p, h⟩).1.source = "app_agent (Simulado)" ∧
    orchestrate ⟨p, h⟩ = orchestrate ⟨p, h2⟩ ∧
    (∃ a b, (orchestrate ⟨"hello", h⟩).1.reply = a ++ "HELLO" ++ b) := by
  refine ⟨rfl, ⟨"El orquestador ha procesado tu prompt: \x27", "\x27", rfl⟩, rfl, rfl,
    ⟨"El orquestador ha procesado tu prompt: \x27", "\x27", rfl⟩⟩

/-- C8: whenever the processing step inside the `try` raises, the handler
catches the exception, logs it after the prompt-received line, and returns
the fixed 500 error response instead of propagating. -/
theorem c8_handler_catches (body : OrchestrateRequest → Except PyExn OrchestrateResponse)
    (req : OrchestrateRequest) (e : PyExn) (hraise : body req = Except.error e) :
    orchestrateHandler body req =
      (⟨500, "", "", "Error interno en el orquestador."⟩,
       ["Prompt recibido: " ++ req.prompt, "Error en el orquestador: " ++ e.msg]) := by
  rw [orchestrateHandler, hraise]

/-- C8 witness: a body that raises "boom" on a concrete request yields the
fixed 500 result with the error logged. -/
theorem c8_handler_catches_witness :
    orchestrateHandler (fun _ => Except.error ⟨"boom"⟩) ⟨"hi", []⟩ =
      (⟨500, "", "", "Error interno en el orquestador."⟩,
       ["Prompt recibido: hi", "Error en el orquestador: boom"]) :=
  c8_handler_catches (fun _ => Except.error ⟨"boom"⟩) ⟨"hi", []⟩ ⟨"boom"⟩ rfl

/-- C10: for every schema-valid request the handler body is pure and cannot
raise, so the error branch is unreachable: the endpoint always returns the
simulated 200 response (and only the prompt-received log line), never the
500 error. -/
theorem c10_error_branch_unreachable (req : OrchestrateRequest) :
    (∃ r, orchestrateBody req = Except.ok r) ∧
    orchestrate req =
      (⟨200, "El orquestador ha procesado tu prompt: \x27" ++ strUpper req.prompt ++ "\x27",
        "app_agent (Simulado)", ""⟩,
       ["Prompt recibido: " ++ req.prompt]) ∧
    (orchestrate req).1.status ≠ 500 := by
  refine ⟨⟨_, rfl⟩, rfl, ?_⟩
  have h200 : (orchestrate req).1.status = 200 := rfl
  rw [h200]
  decide

/-! Request validation for POST /api/orchestrate. The parsing and schema
validation are performed by the FastAPI/pydantic framework, which is not in
the staged sources; the body decoding is modelled from the spec over a
small JSON value type. -/

/-- A JSON value. -/
inductive Json where
  | null
  | bool (b : Bool)
  | num (n : Int)
  | str (s : String)
  | arr (xs : List Json)
  | obj (fields : List (String × Json))

/-- First value bound to a key in a JSON object's field list. -/
def getField : List (String × Json) → String → Option Json
  | [], _ => none
  | (k2, v) :: rest, k => if k2 = k then some v else getField rest k

/-- Modelled from the spec: pydantic validation of one Message object
(required string fields role and content, optional string field source);
`none` is a validation failure. -/
def decodeMessage : Json → Option Message
  | Json.obj fs =>
    match getField fs "role", getField fs "content" with
    | some (Json.str r), some (Json.str c) =>
      match getField fs "source" with
      | none => some ⟨r, c, none⟩
      | some Json.null => some ⟨r, c, none⟩
      | some (Json.str s) => some ⟨r, c, some s⟩
      | some _ => none
    | _, _ => none
  | _ => none

/-- Validation of the history array, element by element. -/
def decodeMessages : List Json → Option (List Message)
  | [] => some []
  | j :: rest =>
    match decodeMessage j, decodeMessages rest with
    | some m, some ms => some (m :: ms)
    | _, _ => none

/-- Modelled from the spec: pydantic validation of the OrchestrateRequest
body (required string prompt and required list-of-Message history). -/
def decodeRequest : Json → Option OrchestrateRequest
  | Json.obj fs =>
    match getField fs "prompt", getField fs "history" with
    | some (Json.str p), some (Json.arr hs) =>
      match decodeMessages hs with
      | some ms => some ⟨p, ms⟩
      | none => none
    | _, _ => none
  | _ => none

/-- Modelled from the spec: FastAPI's request handling for the endpoint. A
body that is not valid JSON (`none`) or fails schema validation is rejected
with a 422 Unprocessable Entity client error before the handler runs; a
valid body reaches the orchestrate handler. -/
def handleOrchestrate (rawBody : Option Json) : HttpResult × List String :=
  match rawBody with
  | none => (⟨422, "", "", "validation error"⟩, [])
  | some j =>
    match decodeRequest j with
    | none => (⟨422, "", "", "validation error"⟩, [])
    | some req => orchestrate req

/-- C7: a POST body that is not valid JSON or does not conform to the
request schema yields a client-error status in [400, 500), never a 500. -/
theorem c7_invalid_body_client_error (rawBody : Option Json)
    (hbad : ∀ j, rawBody = some j → decodeRequest j = none) :
    400 ≤ (handleOrchestrate rawBody).1.status ∧
    (handleOrchestrate rawBody).1.status < 500 := by
  rcases rawBody with _ | j
  · exact ⟨by decide, by decide⟩
  · rw [handleOrchestrate, hbad j rfl]
    exact ⟨by decide, by decide⟩

/-- C7 witness: a body that is a bare JSON string fails schema validation
and is answered with a 4xx status. -/
theorem c7_invalid_body_client_error_witness :
    400 ≤ (handleOrchestrate (some (Json.str "oops"))).1.status ∧
    (handleOrchestrate (some (Json.str "oops"))).1.status < 500 :=
  c7_invalid_body_client_error (some (Json.str "oops"))
    (fun j hj => by cases hj; rfl)

/-! Embedding of the CLI entry of src/AgentesBlack/adk_project/app_agent/
agent.py (lines 100-106): the usage print and the query selection from
sys.argv. -/

/-- The usage line printed when no question argument is given. -/
def usageLine : String := "Usage: python3 app_agent/agent.py <your question here>"

/-- The default question substituted when no argument is given. -/
def defaultQuestion : String := "What is the capital of France?"

/-- Embeds main's query selection: argv holds the program name first; with
further arguments the query is their space-join and nothing is printed,
otherwise the usage line is printed and the default question is used. The
pair is (printed lines, query passed to run_prompt). -/
def mainQuery (argv : List String) : List String × String :=
  if argv.length > 1 then
    ([], String.intercalate " " (argv.drop 1))
  else
    ([usageLine], defaultQuestion)

/-- C6: with no question argument main prints the usage line and runs the
pipeline with the fixed default question; with arguments it prints nothing
extra and runs the pipeline with the space-joined argument text. -/
theorem c6_main_query_selection (argv : List String) :
    (argv.drop 1 = [] → mainQuery argv = ([usageLine], defaultQuestion)) ∧
    (argv.drop 1 ≠ [] →
      mainQuery argv = ([], String.intercalate " " (argv.drop 1))) := by
  constructor
  · intro h
    have hlen : ¬ argv.length > 1 := by
      rcases argv with _ | ⟨a, t⟩
      · simp
      · simp at h
        simp [h]
    simp [mainQuery, hlen]
  · intro h
    have hlen : argv.length > 1 := by
      rcases argv with _ | ⟨a, t⟩
      · simp at h
      · simp at h
        simpa [List.length_pos] using h
    simp [mainQuery, hlen]

end Black
